import Mathlib

/-
Verification of the web components in daKmoR/testing-workflow-for-web-components.

The development gives a shallow embedding of the three components:

* `ToDoItem`   from src/src/todo-item.js : reactive fields label, priority, done,
  with a render template whose markup is a label div, a priority div and a
  button reading "done" that has no attached event listener.
* `ToDoList`   from src/my-app.js (src/unnamed/part_000) : the fixed dataItems
  records built in the class body, the per-record rendering of todo-item
  children, and calculateStats, which folds a done counter and a priority sum
  over the rendered items and divides the sum by the item count.
* `A11yInput`  from src/src/a11y-input.js : reactive fields label and value,
  plus the light DOM children (one label node and one input node) appended by
  connectedCallback, the overridden update-request hook that logs
  "We like cats too :)" whenever the property named value is assigned while its
  current content is the string "cat", and the updated hook that copies the
  component value into the owned input node.

The LitElement base class machinery the components rely on (lit-element 2.x,
the version the repository pins and whose private hook the code overrides) is
embedded as follows, following the lit-element source:

* a reactive property accessor stores the new content first and then calls
  the update-request hook on EVERY assignment; the changed check happens
  inside the base implementation of the hook, after the override already ran;
* the base hook records the property name in changedProperties when the new
  content differs from the old one (default hasChanged is plain inequality);
  only membership of a name is ever read back, so the embedding keeps the
  recorded names as a list;
* an update pass (render followed by the updated hook, then the recorded
  names are cleared) only runs once the element is connected; before the
  first attachment every requested update stays pending, so code inside the
  updated hook can rely on attachment having happened.

JavaScript numbers are embedded as exact rationals together with the
non-finite results of division, because the only numeric operations performed
by the code are integer additions and one division. Fallible DOM access is
embedded with Except: writing to a field of null is a thrown TypeError.
-/

/-! ## ToDoItem (src/src/todo-item.js) -/

/-- Data record shape of a to-do entry, the ToDoItemData typedef of
src/src/todo-item.js: a label, a numeric priority and a done flag. -/
structure ToDoItemData where
  label : String
  priority : Rat
  done : Bool
deriving DecidableEq, Repr

/-- Reactive state of a rendered todo-item element: the three declared
properties of the ToDoItem class. -/
structure ToDoItem where
  label : String
  priority : Rat
  done : Bool
deriving DecidableEq, Repr

/-- State set up by the ToDoItem class body: label is the empty string,
priority is 1, done is false. -/
def ToDoItem.new : ToDoItem :=
  { label := "", priority := 1, done := false }

/-- Shape of the markup produced by ToDoItem.render: a div with the label, a
div with the priority and a button reading "done". The source template
attaches no event listener to the button, which the optional handler field
records. -/
structure ToDoItemTemplate where
  labelText : String
  priorityText : String
  buttonLabel : String
  buttonOnClick : Option (ToDoItem → ToDoItem)

/-- ToDoItem.render from src/src/todo-item.js. The button carries no click
binding in the source template, so the handler slot is empty. -/
def ToDoItem.render (item : ToDoItem) : ToDoItemTemplate :=
  { labelText := item.label
    priorityText := toString item.priority
    buttonLabel := "done"
    buttonOnClick := none }

/-- Activating the rendered "done" button: dispatch a click to the button of
the rendered template. When no listener is attached the click changes
nothing about the component state. -/
def ToDoItem.activateDone (item : ToDoItem) : ToDoItem :=
  match (ToDoItem.render item).buttonOnClick with
  | none => item
  | some handler => handler item

/-! ## JavaScript numbers for the statistics -/

/-- Result of JavaScript number arithmetic as produced by the code under
verification: a finite number (kept exact as a rational), NaN, or a signed
infinity. -/
inductive JsNum where
  | num : Rat → JsNum
  | nan : JsNum
  | posInf : JsNum
  | negInf : JsNum
deriving DecidableEq, Repr

/-- JavaScript division of two finite numbers: division by zero yields NaN
when the numerator is zero as well, otherwise a signed infinity. -/
def jsDiv (a b : Rat) : JsNum :=
  if b = 0 then
    if a = 0 then JsNum.nan
    else if 0 < a then JsNum.posInf
    else JsNum.negInf
  else JsNum.num (a / b)

/-! ## ToDoList (src/my-app.js, provided as src/unnamed/part_000) -/

/-- The two values calculateStats prints: the done counter and the average
priority. -/
structure Stats where
  doneTasks : Nat
  averagePriority : JsNum
deriving DecidableEq, Repr

/-- The dataItems records built by the ToDoList class body. -/
def ToDoList.dataItems : List ToDoItemData :=
  [ { label := "Item 1", priority := 5, done := false }
  , { label := "Item 2", priority := 2, done := true }
  , { label := "Item 3", priority := 7, done := false } ]

/-- ToDoList.render maps every data record to a todo-item element whose
label, priority and done properties are bound to the record fields. The
result is the list of rendered todo-item children that calculateStats later
queries. -/
def ToDoList.renderItems (data : List ToDoItemData) : List ToDoItem :=
  data.map (fun d => { label := d.label, priority := d.priority, done := d.done })

/-- One step of the forEach loop inside calculateStats: the done counter
grows by one for a done item and the priority sum grows by the priority. -/
def ToDoList.statsStep (acc : Nat × Rat) (item : ToDoItem) : Nat × Rat :=
  (acc.1 + (if item.done then 1 else 0), acc.2 + item.priority)

/-- ToDoList.calculateStats: fold the done counter and the priority sum over
the rendered todo-item children, then divide the sum by the number of items.
The source prints the two results; the embedding returns them. -/
def ToDoList.calculateStats (items : List ToDoItem) : Stats :=
  let acc := items.foldl ToDoList.statsStep ((0 : Nat), (0 : Rat))
  { doneTasks := acc.1, averagePriority := jsDiv acc.2 (items.length : Rat) }

/-- C3: calculateStats on the rendered children of the record list
[{label Item 1, priority 5, done false}, {label Item 2, priority 2, done true},
{label Item 3, priority 7, done false}] yields a done count of 1 and an
average priority of 14/3. -/
theorem c3_calculateStats_sample :
    ToDoList.calculateStats (ToDoList.renderItems ToDoList.dataItems) =
      { doneTasks := 1, averagePriority := JsNum.num ((14 : Rat) / 3) } := by
  simp [ToDoList.calculateStats, ToDoList.renderItems, ToDoList.dataItems,
    ToDoList.statsStep, jsDiv]
  norm_num

/-- C4: calculateStats on an empty list of rendered items performs the
division 0 / 0 with a count of zero, unguarded, and the average priority is
NaN. -/
theorem c4_calculateStats_empty_nan :
    ToDoList.calculateStats [] = { doneTasks := 0, averagePriority := JsNum.nan } := by
  simp [ToDoList.calculateStats, jsDiv]

/-- C8 counterexample: activating the "mark done" affordance on a fresh
ToDoItem does NOT set done to true, because the rendered button has no event
listener; the claim that activation sets done to true fails on this input. -/
theorem c8_counterexample :
    (ToDoItem.new.activateDone).done = false ∧
      ¬ ((ToDoItem.new.activateDone).done = true) := by
  decide

/-- C8 amended: activating the "mark done" affordance leaves the component
state entirely unchanged (the rendered button has no listener), so a second
activation also has no effect, and neither activation changes done, priority
or label. -/
theorem c8_activate_is_noop (item : ToDoItem) :
    item.activateDone = item ∧
      (item.activateDone).activateDone.done = item.done ∧
      (item.activateDone).priority = item.priority ∧
      (item.activateDone).label = item.label :=
  ⟨rfl, rfl, rfl, rfl⟩

/-! ## A11yInput (src/src/a11y-input.js) -/

/-- A DOM element in the light DOM of the a11y-input component: tag name,
slot attribute, innerText (used for the label node) and value (used for the
input node). -/
structure DomEl where
  tag : String
  slotAttr : String
  innerText : String
  value : String
deriving DecidableEq, Repr

/-- Assign the value field of the node at a given position of the light DOM,
leaving every other node and every other field alone. This is the in-place
mutation `inputEl.value = ...` of the source, with node identity embedded as
the position of the node in the child list. -/
def setNodeValue : List DomEl → Nat → String → List DomEl
  | [], _, _ => []
  | el :: rest, 0, v => { el with value := v } :: rest
  | el :: rest, Nat.succ n, v => el :: setNodeValue rest n v

/-- Read the value field of the node at a given position of the light DOM. -/
def getNodeValue (dom : List DomEl) (i : Nat) : Option String :=
  (dom.get? i).map DomEl.value

/-- Reactive state of one a11y-input element.

label and value are the two declared reactive properties; they are undefined
(none) until the class body assigns them, exactly as in the source where the
accessors read undefined before the first assignment. labelEl and inputEl
are the owned child references, null (none) until connectedCallback stores
the created nodes; the embedding keeps them as positions in lightDom, the
list of appended children. changedProperties keeps the names recorded by the
base update-request hook (the source also stores old values, but only
membership of a name is ever read). connected says whether connectedCallback
has run, and logs is the trace of the log method. -/
structure A11yInput where
  label : Option String
  value : Option String
  labelEl : Option Nat
  inputEl : Option Nat
  lightDom : List DomEl
  changedProperties : List String
  connected : Bool
  logs : List String
deriving DecidableEq, Repr

/-- A11yInput.log: record the message (the source prints it to the
console). -/
def A11yInput.log (s : A11yInput) (msg : String) : A11yInput :=
  { s with logs := s.logs ++ [msg] }

/-- Read a declared reactive property by name, as the base hook does with
this[name]. -/
def A11yInput.propGet (s : A11yInput) (name : String) : Option String :=
  if name = "value" then s.value
  else if name = "label" then s.label
  else none

/-- The base class part of the update-request hook (lit-element 2.x
UpdatingElement): when the current content of the named property differs
from the old one (default hasChanged is plain inequality) and the name is
not yet recorded, record it in changedProperties; an unchanged assignment
records nothing. -/
def A11yInput.superRequestUpdate (s : A11yInput) (name : String) (oldValue : Option String) :
    A11yInput :=
  if s.propGet name ≠ oldValue then
    if name ∈ s.changedProperties then s
    else { s with changedProperties := s.changedProperties ++ [name] }
  else s

/-- The overridden update-request hook of A11yInput: first the base class
bookkeeping runs, then, when the assigned property is the one named value
and its current content is the string "cat", the component logs
"We like cats too :)". The source compares only the current content, not the
old one. -/
def A11yInput.requestUpdateHook (s : A11yInput) (name : String) (oldValue : Option String) :
    A11yInput :=
  let s1 := s.superRequestUpdate name oldValue
  if name = "value" then
    if s1.value = some "cat" then s1.log "We like cats too :)" else s1
  else s1

/-- The generated reactive accessor for value (lit-element 2.x
createProperty): remember the old content, store the new one, then call the
update-request hook on every assignment, changed or not. -/
def A11yInput.setValue (s : A11yInput) (v : String) : A11yInput :=
  A11yInput.requestUpdateHook { s with value := some v } "value" s.value

/-- The generated reactive accessor for label, same shape as the one for
value. -/
def A11yInput.setLabel (s : A11yInput) (v : String) : A11yInput :=
  A11yInput.requestUpdateHook { s with label := some v } "label" s.label

/-- The A11yInput class body: assign the empty string to label and to value
through the reactive accessors, and null to the two child references. -/
def A11yInput.new : A11yInput :=
  let s : A11yInput :=
    { label := none, value := none, labelEl := none, inputEl := none,
      lightDom := [], changedProperties := [], connected := false, logs := [] }
  (s.setLabel "").setValue ""

/-- A11yInput.connectedCallback: runs on every attachment to a document.
After the base class call (which marks the element connected, letting the
pending update pass proceed), it creates a label node carrying the current
label text and slot "label", appends it, creates an input node with slot
"input", appends it, and stores both references. The source has no guard
against running twice. -/
def A11yInput.connectedCallback (s : A11yInput) : A11yInput :=
  let s1 : A11yInput := { s with connected := true }
  let labelNode : DomEl :=
    { tag := "label", slotAttr := "label", innerText := (s1.label).getD "undefined",
      value := "" }
  let s2 : A11yInput :=
    { s1 with labelEl := some s1.lightDom.length, lightDom := s1.lightDom ++ [labelNode] }
  let inputNode : DomEl :=
    { tag := "input", slotAttr := "input", innerText := "", value := "" }
  { s2 with inputEl := some s2.lightDom.length, lightDom := s2.lightDom ++ [inputNode] }

/-- A11yInput.updated, called at the end of an update pass with the recorded
property names: when value is among them, copy the component value into the
owned input node. The write `this.inputEl.value = this.value` throws a
TypeError when inputEl is still null. -/
def A11yInput.updatedHook (s : A11yInput) (changed : List String) : Except String A11yInput :=
  if "value" ∈ changed then
    match s.inputEl with
    | none => Except.error "TypeError: cannot set value of null"
    | some i =>
        Except.ok { s with lightDom := setNodeValue s.lightDom i ((s.value).getD "undefined") }
  else Except.ok s

/-- One update pass of the base class: nothing happens before the element is
connected (the first pass waits for attachment) or when nothing is recorded;
otherwise the recorded names are cleared, the static shadow template is
re-rendered, and the updated hook receives the recorded names. -/
def A11yInput.flush (s : A11yInput) : Except String A11yInput :=
  if s.connected = true then
    if s.changedProperties = [] then Except.ok s
    else A11yInput.updatedHook { s with changedProperties := [] } s.changedProperties
  else Except.ok s

/-- The state after an update pass, with a thrown exception leaving the
state as it was. -/
def A11yInput.flushOrSelf (s : A11yInput) : A11yInput :=
  match s.flush with
  | Except.ok t => t
  | Except.error _ => s

/-- Whether the update pass completes without throwing. -/
def A11yInput.flushOk (s : A11yInput) : Bool :=
  match s.flush with
  | Except.ok _ => true
  | Except.error _ => false

/-- The displayed value of the owned input node, when that node exists. -/
def A11yInput.inputValue (s : A11yInput) : Option String :=
  s.inputEl.bind (fun i => getNodeValue s.lightDom i)

/-- The identity of a light DOM node apart from its mutable value field. -/
def DomEl.shape (el : DomEl) : String × String × String :=
  (el.tag, el.slotAttr, el.innerText)

/-- Number of light DOM children with a given tag. -/
def A11yInput.countTag (s : A11yInput) (t : String) : Nat :=
  (s.lightDom.filter (fun el => el.tag = t)).length

/-- A freshly constructed a11y-input right after its first attachment, the
state the test fixture of the repository produces for markup with no
attributes. -/
def a11yMounted : A11yInput :=
  A11yInput.new.connectedCallback

/-- States of an a11y-input that the program can actually produce: the
constructed element, followed by any number of attachments, property
assignments and update passes. -/
inductive A11yInput.Reachable : A11yInput → Prop where
  | start : A11yInput.Reachable A11yInput.new
  | connect {s : A11yInput} :
      A11yInput.Reachable s → A11yInput.Reachable s.connectedCallback
  | setV {s : A11yInput} (v : String) :
      A11yInput.Reachable s → A11yInput.Reachable (s.setValue v)
  | setL {s : A11yInput} (v : String) :
      A11yInput.Reachable s → A11yInput.Reachable (s.setLabel v)
  | doFlush {s : A11yInput} :
      A11yInput.Reachable s → A11yInput.Reachable s.flushOrSelf

/-! ## Helper lemmas about the A11yInput operations -/

theorem setNodeValue_length (dom : List DomEl) (i : Nat) (v : String) :
    (setNodeValue dom i v).length = dom.length := by
  induction dom generalizing i with
  | nil => rfl
  | cons hd tl ih => cases i <;> simp [setNodeValue, ih]

theorem setNodeValue_shape (dom : List DomEl) (i : Nat) (v : String) :
    (setNodeValue dom i v).map DomEl.shape = dom.map DomEl.shape := by
  induction dom generalizing i with
  | nil => rfl
  | cons hd tl ih => cases i <;> simp [setNodeValue, DomEl.shape, ih]

theorem getNodeValue_setNodeValue (dom : List DomEl) (i : Nat) (v : String)
    (h : i < dom.length) : getNodeValue (setNodeValue dom i v) i = some v := by
  induction dom generalizing i with
  | nil => simp at h
  | cons hd tl ih =>
      cases i with
      | zero => simp [setNodeValue, getNodeValue]
      | succ n =>
          simp only [List.length_cons, Nat.succ_lt_succ_iff] at h
          simpa [setNodeValue, getNodeValue] using ih n h

theorem A11yInput.superRequestUpdate_logs (s : A11yInput) (n : String) (o : Option String) :
    (s.superRequestUpdate n o).logs = s.logs := by
  unfold A11yInput.superRequestUpdate
  repeat' split
  all_goals rfl

theorem A11yInput.superRequestUpdate_value (s : A11yInput) (n : String) (o : Option String) :
    (s.superRequestUpdate n o).value = s.value := by
  unfold A11yInput.superRequestUpdate
  repeat' split
  all_goals rfl

theorem A11yInput.superRequestUpdate_label (s : A11yInput) (n : String) (o : Option String) :
    (s.superRequestUpdate n o).label = s.label := by
  unfold A11yInput.superRequestUpdate
  repeat' split
  all_goals rfl

theorem A11yInput.superRequestUpdate_inputEl (s : A11yInput) (n : String) (o : Option String) :
    (s.superRequestUpdate n o).inputEl = s.inputEl := by
  unfold A11yInput.superRequestUpdate
  repeat' split
  all_goals rfl

theorem A11yInput.superRequestUpdate_lightDom (s : A11yInput) (n : String) (o : Option String) :
    (s.superRequestUpdate n o).lightDom = s.lightDom := by
  unfold A11yInput.superRequestUpdate
  repeat' split
  all_goals rfl

theorem A11yInput.superRequestUpdate_connected (s : A11yInput) (n : String) (o : Option String) :
    (s.superRequestUpdate n o).connected = s.connected := by
  unfold A11yInput.superRequestUpdate
  repeat' split
  all_goals rfl

theorem A11yInput.superRequestUpdate_mem (s : A11yInput) (n : String) (o : Option String)
    (h : s.propGet n ≠ o) : n ∈ (s.superRequestUpdate n o).changedProperties := by
  unfold A11yInput.superRequestUpdate
  rw [if_pos h]
  split
  · assumption
  · simp


theorem A11yInput.log_value (s : A11yInput) (m : String) : (s.log m).value = s.value := rfl

theorem A11yInput.log_label (s : A11yInput) (m : String) : (s.log m).label = s.label := rfl

theorem A11yInput.log_inputEl (s : A11yInput) (m : String) : (s.log m).inputEl = s.inputEl := rfl

theorem A11yInput.log_lightDom (s : A11yInput) (m : String) :
    (s.log m).lightDom = s.lightDom := rfl

theorem A11yInput.log_connected (s : A11yInput) (m : String) :
    (s.log m).connected = s.connected := rfl

theorem A11yInput.log_changed (s : A11yInput) (m : String) :
    (s.log m).changedProperties = s.changedProperties := rfl

/-- The overridden hook either just performs the base class bookkeeping or
additionally logs the cat notification. -/
theorem A11yInput.requestUpdateHook_eq (s : A11yInput) (n : String) (o : Option String) :
    s.requestUpdateHook n o = s.superRequestUpdate n o ∨
      s.requestUpdateHook n o =
        (s.superRequestUpdate n o).log "We like cats too :)" := by
  simp only [A11yInput.requestUpdateHook]
  split
  · split
    · right; rfl
    · left; rfl
  · left; rfl

theorem A11yInput.requestUpdateHook_value (s : A11yInput) (n : String) (o : Option String) :
    (s.requestUpdateHook n o).value = s.value := by
  cases A11yInput.requestUpdateHook_eq s n o with
  | inl h => rw [h, A11yInput.superRequestUpdate_value]
  | inr h => rw [h, A11yInput.log_value, A11yInput.superRequestUpdate_value]

theorem A11yInput.requestUpdateHook_label (s : A11yInput) (n : String) (o : Option String) :
    (s.requestUpdateHook n o).label = s.label := by
  cases A11yInput.requestUpdateHook_eq s n o with
  | inl h => rw [h, A11yInput.superRequestUpdate_label]
  | inr h => rw [h, A11yInput.log_label, A11yInput.superRequestUpdate_label]

theorem A11yInput.requestUpdateHook_inputEl (s : A11yInput) (n : String) (o : Option String) :
    (s.requestUpdateHook n o).inputEl = s.inputEl := by
  cases A11yInput.requestUpdateHook_eq s n o with
  | inl h => rw [h, A11yInput.superRequestUpdate_inputEl]
  | inr h => rw [h, A11yInput.log_inputEl, A11yInput.superRequestUpdate_inputEl]

theorem A11yInput.requestUpdateHook_lightDom (s : A11yInput) (n : String) (o : Option String) :
    (s.requestUpdateHook n o).lightDom = s.lightDom := by
  cases A11yInput.requestUpdateHook_eq s n o with
  | inl h => rw [h, A11yInput.superRequestUpdate_lightDom]
  | inr h => rw [h, A11yInput.log_lightDom, A11yInput.superRequestUpdate_lightDom]

theorem A11yInput.requestUpdateHook_connected (s : A11yInput) (n : String) (o : Option String) :
    (s.requestUpdateHook n o).connected = s.connected := by
  cases A11yInput.requestUpdateHook_eq s n o with
  | inl h => rw [h, A11yInput.superRequestUpdate_connected]
  | inr h => rw [h, A11yInput.log_connected, A11yInput.superRequestUpdate_connected]

theorem A11yInput.requestUpdateHook_changed (s : A11yInput) (n : String) (o : Option String) :
    (s.requestUpdateHook n o).changedProperties =
      (s.superRequestUpdate n o).changedProperties := by
  cases A11yInput.requestUpdateHook_eq s n o with
  | inl h => rw [h]
  | inr h => rw [h, A11yInput.log_changed]

/-- The log trace of the hook for the property named value: the notification
is appended exactly when the current content is the string "cat". -/
theorem A11yInput.requestUpdateHook_value_logs (s : A11yInput) (o : Option String) :
    (s.requestUpdateHook "value" o).logs =
      if s.value = some "cat" then s.logs ++ ["We like cats too :)"] else s.logs := by
  simp only [A11yInput.requestUpdateHook, if_true]
  split
  · rename_i h
    rw [A11yInput.superRequestUpdate_value] at h
    rw [if_pos h]
    simp [A11yInput.log, A11yInput.superRequestUpdate_logs]
  · rename_i h
    rw [A11yInput.superRequestUpdate_value] at h
    rw [if_neg h]
    exact A11yInput.superRequestUpdate_logs s "value" o

theorem A11yInput.setValue_value (s : A11yInput) (v : String) :
    (s.setValue v).value = some v := by
  unfold A11yInput.setValue
  rw [A11yInput.requestUpdateHook_value]

theorem A11yInput.setValue_label (s : A11yInput) (v : String) :
    (s.setValue v).label = s.label := by
  unfold A11yInput.setValue
  rw [A11yInput.requestUpdateHook_label]

theorem A11yInput.setValue_inputEl (s : A11yInput) (v : String) :
    (s.setValue v).inputEl = s.inputEl := by
  unfold A11yInput.setValue
  rw [A11yInput.requestUpdateHook_inputEl]

theorem A11yInput.setValue_lightDom (s : A11yInput) (v : String) :
    (s.setValue v).lightDom = s.lightDom := by
  unfold A11yInput.setValue
  rw [A11yInput.requestUpdateHook_lightDom]

theorem A11yInput.setValue_connected (s : A11yInput) (v : String) :
    (s.setValue v).connected = s.connected := by
  unfold A11yInput.setValue
  rw [A11yInput.requestUpdateHook_connected]

theorem A11yInput.setLabel_inputEl (s : A11yInput) (v : String) :
    (s.setLabel v).inputEl = s.inputEl := by
  unfold A11yInput.setLabel
  rw [A11yInput.requestUpdateHook_inputEl]

theorem A11yInput.setLabel_lightDom (s : A11yInput) (v : String) :
    (s.setLabel v).lightDom = s.lightDom := by
  unfold A11yInput.setLabel
  rw [A11yInput.requestUpdateHook_lightDom]

theorem A11yInput.setLabel_connected (s : A11yInput) (v : String) :
    (s.setLabel v).connected = s.connected := by
  unfold A11yInput.setLabel
  rw [A11yInput.requestUpdateHook_connected]

/-- The log trace of an assignment to value: the notification is appended
exactly when the assigned string is "cat", no matter what the old content
was and no matter whether the assignment changed anything. -/
theorem A11yInput.setValue_logs (s : A11yInput) (v : String) :
    (s.setValue v).logs =
      if v = "cat" then s.logs ++ ["We like cats too :)"] else s.logs := by
  unfold A11yInput.setValue
  rw [A11yInput.requestUpdateHook_value_logs]
  simp

/-- An assignment that changes value records the name value among the
changed properties. -/
theorem A11yInput.setValue_changed_mem (s : A11yInput) (v : String)
    (h : s.value ≠ some v) : "value" ∈ (s.setValue v).changedProperties := by
  unfold A11yInput.setValue
  rw [A11yInput.requestUpdateHook_changed]
  apply A11yInput.superRequestUpdate_mem
  show some v ≠ s.value
  intro heq
  exact h heq.symm

/-- A completed update pass preserves connection, the child references, the
reactive fields, the log trace, the number of light DOM children and the
shape (tag, slot, innerText) of every child; only value fields of existing
nodes may change. -/
theorem A11yInput.flush_ok_fields {s t : A11yInput} (h : s.flush = Except.ok t) :
    t.connected = s.connected ∧ t.inputEl = s.inputEl ∧ t.labelEl = s.labelEl ∧
      t.value = s.value ∧ t.label = s.label ∧ t.logs = s.logs ∧
      t.lightDom.length = s.lightDom.length ∧
      t.lightDom.map DomEl.shape = s.lightDom.map DomEl.shape := by
  unfold A11yInput.flush A11yInput.updatedHook at h
  repeat' split at h
  all_goals first
    | exact Except.noConfusion h
    | (injection h with h
       subst h
       exact ⟨rfl, rfl, rfl, rfl, rfl, rfl, by simp [setNodeValue_length],
         by simp [setNodeValue_shape]⟩)

theorem A11yInput.flushOrSelf_connected (s : A11yInput) :
    (s.flushOrSelf).connected = s.connected := by
  unfold A11yInput.flushOrSelf
  split
  · rename_i t h
    exact (A11yInput.flush_ok_fields h).1
  · rfl

theorem A11yInput.flushOrSelf_inputEl (s : A11yInput) :
    (s.flushOrSelf).inputEl = s.inputEl := by
  unfold A11yInput.flushOrSelf
  split
  · rename_i t h
    exact (A11yInput.flush_ok_fields h).2.1
  · rfl

theorem A11yInput.flushOrSelf_lightDom_length (s : A11yInput) :
    (s.flushOrSelf).lightDom.length = s.lightDom.length := by
  unfold A11yInput.flushOrSelf
  split
  · rename_i t h
    exact (A11yInput.flush_ok_fields h).2.2.2.2.2.2.1
  · rfl

theorem A11yInput.connectedCallback_inputEl (s : A11yInput) :
    (s.connectedCallback).inputEl = some (s.lightDom.length + 1) := by
  simp [A11yInput.connectedCallback]

theorem A11yInput.connectedCallback_lightDom_length (s : A11yInput) :
    (s.connectedCallback).lightDom.length = s.lightDom.length + 2 := by
  simp [A11yInput.connectedCallback]

theorem A11yInput.connectedCallback_connected (s : A11yInput) :
    (s.connectedCallback).connected = true := by
  simp [A11yInput.connectedCallback]

/-- In every reachable connected state the owned input reference points at an
existing light DOM child: connectedCallback creates the node before the
first update pass can run, and no later operation drops it. -/
theorem A11yInput.reachable_connected_inputEl {s : A11yInput} (hr : s.Reachable) :
    s.connected = true → ∃ i, s.inputEl = some i ∧ i < s.lightDom.length := by
  induction hr with
  | start =>
      intro hc
      exact absurd hc (by decide)
  | connect hr ih =>
      intro hc
      refine ⟨_, A11yInput.connectedCallback_inputEl _, ?_⟩
      rw [A11yInput.connectedCallback_lightDom_length]
      omega
  | setV v hr ih =>
      intro hc
      rw [A11yInput.setValue_connected] at hc
      obtain ⟨i, h1, h2⟩ := ih hc
      exact ⟨i, by rw [A11yInput.setValue_inputEl]; exact h1,
        by rw [A11yInput.setValue_lightDom]; exact h2⟩
  | setL v hr ih =>
      intro hc
      rw [A11yInput.setLabel_connected] at hc
      obtain ⟨i, h1, h2⟩ := ih hc
      exact ⟨i, by rw [A11yInput.setLabel_inputEl]; exact h1,
        by rw [A11yInput.setLabel_lightDom]; exact h2⟩
  | doFlush hr ih =>
      intro hc
      rw [A11yInput.flushOrSelf_connected] at hc
      obtain ⟨i, h1, h2⟩ := ih hc
      exact ⟨i, by rw [A11yInput.flushOrSelf_inputEl]; exact h1,
        by rw [A11yInput.flushOrSelf_lightDom_length]; exact h2⟩

/-- A connected state with a pending change of value and a valid input
reference completes its update pass by writing the component value into the
input node. -/
theorem A11yInput.flush_sync {s : A11yInput} {i : Nat}
    (hc : s.connected = true) (hv : "value" ∈ s.changedProperties)
    (hi : s.inputEl = some i) :
    s.flush = Except.ok
      { s with changedProperties := [],
               lightDom := setNodeValue s.lightDom i ((s.value).getD "undefined") } := by
  have hne : s.changedProperties ≠ [] := List.ne_nil_of_mem hv
  unfold A11yInput.flush A11yInput.updatedHook
  rw [if_pos hc, if_neg hne, if_pos hv]
  have : ({ s with changedProperties := ([] : List String) } : A11yInput).inputEl = some i := hi
  rw [this]

/-- Writing the synchronized value into the input node at a valid position
makes the displayed input value equal to the written string. -/
theorem A11yInput.inputValue_after_sync {s : A11yInput} {i : Nat}
    (hi : s.inputEl = some i) (hlen : i < s.lightDom.length) (v : String) :
    A11yInput.inputValue
      { s with changedProperties := [], lightDom := setNodeValue s.lightDom i v } = some v := by
  unfold A11yInput.inputValue
  have hproj :
      ({ s with changedProperties := ([] : List String),
                lightDom := setNodeValue s.lightDom i v } : A11yInput).inputEl = some i := hi
  rw [hproj]
  exact getNodeValue_setNodeValue s.lightDom i v hlen

/-! ## Claims about A11yInput -/

/-- C1 counterexample: on a freshly mounted a11y-input, assigning "cat" to
value and then assigning "cat" again with no intervening change fires the
notification twice, not exactly once as the claim states: the overridden
hook runs on every assignment and compares only the current content with
"cat". -/
theorem c1_counterexample :
    ((a11yMounted.setValue "cat").setValue "cat").logs.length = 2 ∧
      ¬ (((a11yMounted.setValue "cat").setValue "cat").logs.length = 1) := by
  decide

/-- C1 amended: every assignment of "cat" to value fires the notification,
whether or not the value changed; two consecutive assignments of "cat" with
no intervening change fire it twice, once per assignment. -/
theorem c1_every_cat_assignment_logs (s : A11yInput) :
    (s.setValue "cat").logs.length = s.logs.length + 1 ∧
      ((s.setValue "cat").setValue "cat").logs.length = s.logs.length + 2 := by
  have h1 := A11yInput.setValue_logs s "cat"
  have h2 := A11yInput.setValue_logs (s.setValue "cat") "cat"
  rw [if_pos rfl] at h1 h2
  refine ⟨by rw [h1]; simp, by rw [h2, h1]; simp⟩

/-- C2: on a freshly mounted a11y-input, entering "cat", leaving it for any
other string, and entering "cat" again fires the notification exactly twice
over the component lifetime, once per entry into "cat", and the exit fires
nothing. -/
theorem c2_cat_roundtrip_logs (str : String) (h : str ≠ "cat") :
    a11yMounted.logs.length = 0 ∧
      (a11yMounted.setValue "cat").logs.length = 1 ∧
      ((a11yMounted.setValue "cat").setValue str).logs.length = 1 ∧
      (((a11yMounted.setValue "cat").setValue str).setValue "cat").logs.length = 2 := by
  have h0 : a11yMounted.logs = [] := by decide
  have h1 := A11yInput.setValue_logs a11yMounted "cat"
  rw [if_pos rfl, h0] at h1
  have h2 := A11yInput.setValue_logs (a11yMounted.setValue "cat") str
  rw [if_neg h, h1] at h2
  have h3 := A11yInput.setValue_logs ((a11yMounted.setValue "cat").setValue str) "cat"
  rw [if_pos rfl, h2] at h3
  exact ⟨by rw [h0]; rfl, by rw [h1]; rfl, by rw [h2]; rfl, by rw [h3]; rfl⟩

/-- C2 witness: the roundtrip through the string "dog". -/
theorem c2_cat_roundtrip_logs_witness :
    a11yMounted.logs.length = 0 ∧
      (a11yMounted.setValue "cat").logs.length = 1 ∧
      ((a11yMounted.setValue "cat").setValue "dog").logs.length = 1 ∧
      (((a11yMounted.setValue "cat").setValue "dog").setValue "cat").logs.length = 2 :=
  c2_cat_roundtrip_logs "dog" (by decide)

/-- C5 counterexample: a second attachment of the same instance runs
connectedCallback again and appends a second label node and a second input
node, so the created children are not created exactly once per instance:
after two attachments the light DOM holds four created nodes, not the two
the claim implies. -/
theorem c5_counterexample :
    (A11yInput.new.connectedCallback.connectedCallback).lightDom.length = 4 ∧
      (A11yInput.new.connectedCallback.connectedCallback).countTag "label" = 2 ∧
      (A11yInput.new.connectedCallback.connectedCallback).countTag "input" = 2 ∧
      ¬ ((A11yInput.new.connectedCallback.connectedCallback).lightDom.length = 2) := by
  decide

/-- C5 amended: the label and input child nodes are created once per
ATTACHMENT, not once per instance: every run of connectedCallback appends a
fresh label node and a fresh input node, so a single attachment creates
exactly two nodes and re-attachment creates two more; property assignments
create no nodes, and a completed update pass leaves the number of children
and the shape (tag, slot, innerText) of every child unchanged, mutating
only value fields of existing nodes in place. -/
theorem c5_nodes_created_per_attachment (s t : A11yInput) (v w : String) :
    (s.connectedCallback).lightDom.length = s.lightDom.length + 2 ∧
      (s.setValue v).lightDom = s.lightDom ∧
      (s.setLabel w).lightDom = s.lightDom ∧
      (s.flush = Except.ok t →
        t.lightDom.length = s.lightDom.length ∧
        t.lightDom.map DomEl.shape = s.lightDom.map DomEl.shape) := by
  refine ⟨A11yInput.connectedCallback_lightDom_length s, A11yInput.setValue_lightDom s v,
    A11yInput.setLabel_lightDom s w, fun h => ?_⟩
  have hf := A11yInput.flush_ok_fields h
  exact ⟨hf.2.2.2.2.2.2.1, hf.2.2.2.2.2.2.2⟩

/-- C5 witness: the amended statement evaluated on the freshly mounted
instance, its first completed update pass included. -/
theorem c5_nodes_created_per_attachment_witness :
    (a11yMounted.connectedCallback).lightDom.length = a11yMounted.lightDom.length + 2 ∧
      (a11yMounted.setValue "x").lightDom = a11yMounted.lightDom ∧
      (a11yMounted.setLabel "y").lightDom = a11yMounted.lightDom ∧
      ((a11yMounted.flushOrSelf).lightDom.length = a11yMounted.lightDom.length ∧
        (a11yMounted.flushOrSelf).lightDom.map DomEl.shape =
          a11yMounted.lightDom.map DomEl.shape) := by
  have h := c5_nodes_created_per_attachment a11yMounted a11yMounted.flushOrSelf "x" "y"
  exact ⟨h.1, h.2.1, h.2.2.1, h.2.2.2 (by rfl)⟩

/-- C6: assigning value before the first attachment is total and throws
nothing: the hook only logs, the owned nodes are untouched (inputEl is still
null), and the update pass that would dereference the input node stays
deferred until attachment, so it is a no-op while the element is
detached. -/
theorem c6_detached_value_set_safe (s : A11yInput) (v : String)
    (hc : s.connected = false) :
    (s.setValue v).flushOk = true ∧
      (s.setValue v).flushOrSelf = s.setValue v ∧
      (s.setValue v).lightDom = s.lightDom := by
  have hc' : (s.setValue v).connected = false := by
    rw [A11yInput.setValue_connected]; exact hc
  have hflush : (s.setValue v).flush = Except.ok (s.setValue v) := by
    unfold A11yInput.flush
    rw [hc']
    simp
  refine ⟨?_, ?_, A11yInput.setValue_lightDom s v⟩
  · unfold A11yInput.flushOk
    rw [hflush]
  · unfold A11yInput.flushOrSelf
    rw [hflush]

/-- C6 witness: a freshly constructed, never attached element takes an
assignment of "cat" without throwing, and the update pass defers. -/
theorem c6_detached_value_set_safe_witness :
    (A11yInput.new.setValue "cat").flushOk = true ∧
      (A11yInput.new.setValue "cat").flushOrSelf = A11yInput.new.setValue "cat" ∧
      (A11yInput.new.setValue "cat").lightDom = A11yInput.new.lightDom :=
  c6_detached_value_set_safe A11yInput.new "cat" (by decide)

/-- C7: the initial set of value is synchronized into the input node by the
first completed update pass after mounting, and on every reachable attached
state, after a change of value the completed update pass leaves the
displayed input value equal to the component value. -/
theorem c7_value_synced_after_update (s : A11yInput) (v : String)
    (hr : s.Reachable) (hc : s.connected = true) (hch : s.value ≠ some v) :
    (a11yMounted.flushOrSelf).inputValue = some "" ∧
      (s.setValue v).flushOk = true ∧
      ((s.setValue v).flushOrSelf).value = some v ∧
      ((s.setValue v).flushOrSelf).inputValue = some v := by
  obtain ⟨i, hi, hlen⟩ := A11yInput.reachable_connected_inputEl hr hc
  have hc' : (s.setValue v).connected = true := by
    rw [A11yInput.setValue_connected]; exact hc
  have hv' : "value" ∈ (s.setValue v).changedProperties :=
    A11yInput.setValue_changed_mem s v hch
  have hi' : (s.setValue v).inputEl = some i := by
    rw [A11yInput.setValue_inputEl]; exact hi
  have hlen' : i < (s.setValue v).lightDom.length := by
    rw [A11yInput.setValue_lightDom]; exact hlen
  have hflush := A11yInput.flush_sync hc' hv' hi'
  have hval : (s.setValue v).value = some v := A11yInput.setValue_value s v
  refine ⟨by decide, ?_, ?_, ?_⟩
  · unfold A11yInput.flushOk
    rw [hflush]
  · unfold A11yInput.flushOrSelf
    rw [hflush]
    exact hval
  · unfold A11yInput.flushOrSelf
    rw [hflush]
    rw [A11yInput.inputValue_after_sync hi' hlen']
    rw [hval]
    rfl

/-- C7 witness: a change of value to "foo" on the freshly mounted element is
synchronized by the update pass. -/
theorem c7_value_synced_after_update_witness :
    (a11yMounted.flushOrSelf).inputValue = some "" ∧
      (a11yMounted.setValue "foo").flushOk = true ∧
      ((a11yMounted.setValue "foo").flushOrSelf).value = some "foo" ∧
      ((a11yMounted.setValue "foo").flushOrSelf).inputValue = some "foo" :=
  c7_value_synced_after_update a11yMounted "foo"
    (A11yInput.Reachable.connect A11yInput.Reachable.start) (by decide) (by decide)

/-- C9: the freshly constructed element with no attributes set has the empty
string in label and in value, and after mounting its rendered light DOM
holds exactly one label element and exactly one input element, with the
first update pass completing without a throw. -/
theorem c9_fresh_defaults :
    (a11yMounted.flushOrSelf).label = some "" ∧
      (a11yMounted.flushOrSelf).value = some "" ∧
      (a11yMounted.flushOrSelf).countTag "label" = 1 ∧
      (a11yMounted.flushOrSelf).countTag "input" = 1 ∧
      a11yMounted.flushOk = true := by
  decide
